import Mathlib

/-!
Verification of the Linux DNS leak-protection core of the vpn-desktop-app
daemon (package `dns`, the `rconf_*` functions operating on `/etc/resolv.conf`
and its backup `/etc/resolv.conf.ivpnsave`).

The file-system state visible to the package is the content of the live
resolver file and of the backup file.  OS file primitives (rename, open,
write, sync) may fail; an `IoOracle` value fixes the outcome of each
primitive, so every theorem quantifying over the oracle covers both the
success and the failure behaviour of the code.

The fsnotify change-monitor goroutine and its stop channel
(`rconf_stopDNSChangeMonitoring`) are concurrent machinery with no effect on
the synchronous file-state semantics modelled here; the `localInterfaceIP`
parameters are unused by the Linux implementation.
-/

namespace VpnDns

/-- Content of the two files the package manipulates: `resolv` is
`/etc/resolv.conf` (the live path), `backup` is `/etc/resolv.conf.ivpnsave`.
`none` means the file does not exist. -/
structure FsState where
  resolv : Option String
  backup : Option String
deriving DecidableEq, Repr

/-- Outcomes of the fallible OS primitives used by the package: the two
rename directions, and the open / write / sync steps of the override writer.
`true` means the primitive succeeds when invoked. -/
structure IoOracle where
  renameLiveToBackup : Bool
  renameBackupToLive : Bool
  openOk : Bool
  writeOk : Bool
  syncOk : Bool
deriving DecidableEq, Repr

/-- The oracle under which every OS primitive succeeds. -/
def allOk : IoOracle := ⟨true, true, true, true, true⟩

/-- Modelled from the spec: `ManualDnsSettings` — the `dns.DnsSettings` type is
referenced but not among the provided source files.  The code reads a single
address from it (`dnsCfg.Ip()`), so the model carries one server address
(`dnsHost`); the empty string is the "no override requested" sentinel checked
by `IsEmpty`. -/
structure DnsSettings where
  dnsHost : String
deriving DecidableEq, Repr

/-- Modelled from the spec: empty settings are the sentinel meaning no
override requested. -/
def DnsSettings.IsEmpty (s : DnsSettings) : Bool := s.dnsHost = ""

/-- Modelled from the spec: the textual form of the single address the code
obtains via `dnsCfg.Ip().String()`. -/
def DnsSettings.ipString (s : DnsSettings) : String := s.dnsHost

/-- The list of server addresses carried by the settings (empty for the
sentinel value, otherwise the one address). -/
def DnsSettings.addresses (s : DnsSettings) : List String :=
  if s.dnsHost = "" then [] else [s.dnsHost]

/-- The zero value `DnsSettings{}` returned by the Go code on every error
path. -/
def emptySettings : DnsSettings := ⟨""⟩

/-- Errors produced by the package, one constructor per `fmt.Errorf` site:
the stat / rename failures of `rconf_createBackup`, the open / write / sync
failures of `saveNewConfig`, the rename failure of `rconf_restoreBackup`,
the wrapper added by `rconf_implInitialize`, and the snap-environment
diagnostic that replaces a backup error in `rconf_implSetManual`. -/
inductive DnsError where
  | backupStatFailed
  | backupRenameFailed
  | openFailed
  | writeFailed
  | syncFailed
  | restoreRenameFailed
  | initRestoreWrap (e : DnsError)
  | snapRestricted (e : DnsError) (msg : String)
deriving DecidableEq, Repr

/-- Modelled from the spec: the environment-diagnostics collaborator
(`platform.GetSnapEnvs` / `platform.IsSnapAbleManageResolvconf`, whose code is
not among the provided source files).  `isSnapEnvironment` is
`GetSnapEnvs() != nil`; `resolvconfAllowed` and `userErrMsgIfNotAllowed` are
the first two results of `IsSnapAbleManageResolvconf`; `snapCheckFailed`
models its error result, which the code only logs. -/
structure SnapEnv where
  isSnapEnvironment : Bool
  resolvconfAllowed : Bool
  userErrMsgIfNotAllowed : String
  snapCheckFailed : Bool
deriving DecidableEq, Repr

/-- `rconf_isBackupExists`: `os.Stat(resolvBackupFile)` succeeds exactly when
the backup file exists. -/
def rconf_isBackupExists (st : FsState) : Bool := st.backup.isSome

/-- `rconf_createBackup(isOverwriteIfExists)`: fails if the live file is
missing; no-op success `(false, nil)` if the backup exists and overwrite was
not requested; otherwise renames the live file to the backup location. -/
def rconf_createBackup (o : IoOracle) (isOverwriteIfExists : Bool) (st : FsState) :
    (Bool × Option DnsError) × FsState :=
  match st.resolv with
  | none => ((false, some DnsError.backupStatFailed), st)
  | some content =>
    if st.backup.isSome && !isOverwriteIfExists then ((false, none), st)
    else if o.renameLiveToBackup then
      ((true, none), { resolv := none, backup := some content })
    else ((false, some DnsError.backupRenameFailed), st)

/-- `rconf_restoreBackup`: no-op success if the backup is missing, otherwise
renames the backup back to the live path. -/
def rconf_restoreBackup (o : IoOracle) (st : FsState) : Option DnsError × FsState :=
  match st.backup with
  | none => (none, st)
  | some content =>
    if o.renameBackupToLive then (none, { resolv := some content, backup := none })
    else (some DnsError.restoreRenameFailed, st)

/-- `rconf_implDeleteManual`: stops the change monitoring (no file-state
effect) and restores the backup. -/
def rconf_implDeleteManual (o : IoOracle) (st : FsState) : Option DnsError × FsState :=
  rconf_restoreBackup o st

/-- `rconf_implInitialize`: if the backup file is missing there is nothing to
restore; otherwise delegates to `rconf_implDeleteManual`, wrapping its error
as "failed to restore DNS to default". -/
def rconf_implInitialize (o : IoOracle) (st : FsState) : Option DnsError × FsState :=
  match st.backup with
  | none => (none, st)
  | some _ =>
    match rconf_implDeleteManual o st with
    | (some e, st2) => (some (DnsError.initRestoreWrap e), st2)
    | (none, st2) => (none, st2)

/-- `rconf_implPause`: no-op success when no backup exists, otherwise stops
monitoring and restores the backup. -/
def rconf_implPause (o : IoOracle) (st : FsState) : Option DnsError × FsState :=
  if !(rconf_isBackupExists st) then (none, st)
  else rconf_restoreBackup o st

/-- `rconf_implResume`: always a no-op returning nil. -/
def rconf_implResume (st : FsState) : Option DnsError × FsState := (none, st)

/-- The body written by `saveNewConfig`:
`fmt.Sprintf("# resolv.conf autogenerated by '%s'\n\nnameserver %s\n",
os.Args[0], dnsCfg.Ip().String())`, with `argv0` standing for `os.Args[0]`. -/
def resolvBody (argv0 ipStr : String) : String :=
  "# resolv.conf autogenerated by \x27" ++ argv0 ++ "\x27\n\nnameserver " ++ ipStr ++ "\n"

/-- The deterministic header-comment prefix of the generated file. -/
def resolvHeader (argv0 : String) : String :=
  "# resolv.conf autogenerated by \x27" ++ argv0 ++ "\x27\n\n"

/-- One `nameserver <address>` line per address, in the order supplied. -/
def nameserverLines : List String → String
  | [] => ""
  | a :: rest => "nameserver " ++ a ++ "\n" ++ nameserverLines rest

/-- The `saveNewConfig` closure of `rconf_implSetManual`: calls
`createBackupIfNotExists` ignoring both results, then opens the live path
with create-or-truncate semantics, writes the generated body and syncs.
Failure of open leaves the file state produced by the ignored backup attempt;
failure of write leaves the truncated (empty) file; failure of sync leaves
the written content. -/
def saveNewConfig (o : IoOracle) (argv0 : String) (dnsCfg : DnsSettings) (st : FsState) :
    Option DnsError × FsState :=
  let st1 := (rconf_createBackup o false st).2
  if !o.openOk then (some DnsError.openFailed, st1)
  else if !o.writeOk then (some DnsError.writeFailed, { st1 with resolv := some "" })
  else if !o.syncOk then
    (some DnsError.syncFailed, { st1 with resolv := some (resolvBody argv0 dnsCfg.ipString) })
  else (none, { st1 with resolv := some (resolvBody argv0 dnsCfg.ipString) })

/-- `rconf_implSetManual`: stops monitoring; delegates to
`rconf_implDeleteManual` when the settings are empty, returning the zero
`DnsSettings{}`; otherwise creates the backup if absent (without overwrite),
replacing a backup error by the snap-environment diagnostic when the snap
checks say editing resolv.conf is not allowed; then writes the new
configuration via `saveNewConfig`.  Every error path returns the zero
`DnsSettings{}`; success returns the settings just applied. -/
def rconf_implSetManual (o : IoOracle) (env : SnapEnv) (argv0 : String)
    (dnsCfg : DnsSettings) (st : FsState) :
    (DnsSettings × Option DnsError) × FsState :=
  if dnsCfg.IsEmpty then
    let r := rconf_implDeleteManual o st
    ((emptySettings, r.1), r.2)
  else
    let b := rconf_createBackup o false st
    match b.1.2 with
    | some err =>
      if env.isSnapEnvironment && !env.resolvconfAllowed
          && decide (0 < env.userErrMsgIfNotAllowed.length) then
        ((emptySettings, some (DnsError.snapRestricted err env.userErrMsgIfNotAllowed)), b.2)
      else ((emptySettings, some err), b.2)
    | none =>
      let s := saveNewConfig o argv0 dnsCfg b.2
      match s.1 with
      | some e => ((emptySettings, some e), s.2)
      | none => ((dnsCfg, none), s.2)

/-- The five public operations of the DNS manager, with the parameters the
Linux implementation actually consults. -/
inductive PublicOp where
  | doInit
  | doSetManual (env : SnapEnv) (argv0 : String) (cfg : DnsSettings)
  | doDeleteManual
  | doPause
  | doResume

/-- The file state reached by running one public operation. -/
def runOp (o : IoOracle) (op : PublicOp) (st : FsState) : FsState :=
  match op with
  | .doInit => (rconf_implInitialize o st).2
  | .doSetManual env argv0 cfg => (rconf_implSetManual o env argv0 cfg st).2
  | .doDeleteManual => (rconf_implDeleteManual o st).2
  | .doPause => (rconf_implPause o st).2
  | .doResume => (rconf_implResume st).2

/-- The session invariant relative to the original pre-session content `c`:
either no override session is active (no backup, the live path holds `c`) or
a session is active and the backup safeguards `c`. -/
def SessionInv (c : String) (st : FsState) : Prop :=
  (st.backup = none ∧ st.resolv = some c) ∨ st.backup = some c

instance (c : String) (st : FsState) : Decidable (SessionInv c st) := by
  unfold SessionInv; infer_instance

/-- The backup invariant exactly as the claim states it, relative to the
original content `c`: the backup file exists iff the live path currently
holds content other than the original. -/
def ClaimedBackupInv (c : String) (st : FsState) : Prop :=
  st.backup.isSome = true ↔ st.resolv ≠ some c

instance (c : String) (st : FsState) : Decidable (ClaimedBackupInv c st) := by
  unfold ClaimedBackupInv; infer_instance

/-- Original live content for the invariant counterexample: the file already
holds exactly the body the override writer would generate. -/
def c3Original : String := resolvBody "ivpn" "10.0.0.1"

/-- A snap environment whose diagnostics report nothing. -/
def plainEnv : SnapEnv := ⟨false, true, "", false⟩

/-- One `SetManual` invocation: the oracle fixing its I/O outcomes, the snap
environment, the program name and the requested settings. -/
structure SetManualCall where
  oracle : IoOracle
  env : SnapEnv
  argv0 : String
  cfg : DnsSettings

/-- Runs a sequence of `SetManual` calls; the boolean is `true` iff every
call in the sequence returned a nil error. -/
def runSetManualSeq : List SetManualCall → FsState → FsState × Bool
  | [], st => (st, true)
  | call :: rest, st =>
    let r := rconf_implSetManual call.oracle call.env call.argv0 call.cfg st
    let next := runSetManualSeq rest r.2
    (next.1, r.1.2.isNone && next.2)

/-- A snap environment that forbids editing resolv.conf and carries a
remediation message. -/
def snapEnvRestricted : SnapEnv := ⟨true, false, "snap refused", false⟩

/-- First concrete call of the round-trip witness. -/
def rtCall1 : SetManualCall := ⟨allOk, plainEnv, "ivpn", ⟨"10.0.0.1"⟩⟩

/-- Second concrete call of the round-trip witness. -/
def rtCall2 : SetManualCall := ⟨allOk, plainEnv, "ivpn", ⟨"10.0.0.2"⟩⟩

theorem restore_sessionInv (o : IoOracle) (c : String) (st : FsState)
    (h : SessionInv c st) : SessionInv c (rconf_restoreBackup o st).2 := by
  obtain ⟨r, b⟩ := st
  rcases h with ⟨hb, hr⟩ | hb
  · simp only at hb hr
    subst hb; subst hr
    simp [rconf_restoreBackup, SessionInv]
  · simp only at hb
    subst hb
    by_cases ho : o.renameBackupToLive = true <;>
      simp [rconf_restoreBackup, SessionInv, ho]

theorem createBackup_sessionInv (o : IoOracle) (c : String) (st : FsState)
    (h : SessionInv c st) : SessionInv c (rconf_createBackup o false st).2 := by
  obtain ⟨r, b⟩ := st
  rcases h with ⟨hb, hr⟩ | hb
  · simp only at hb hr
    subst hb; subst hr
    by_cases ho : o.renameLiveToBackup = true <;>
      simp [rconf_createBackup, SessionInv, ho]
  · simp only at hb
    subst hb
    cases r <;> simp [rconf_createBackup, SessionInv]

theorem createBackup_ok_backup (o : IoOracle) (c : String) (st : FsState)
    (h : SessionInv c st) (hok : (rconf_createBackup o false st).1.2 = none) :
    (rconf_createBackup o false st).2.backup = some c := by
  obtain ⟨r, b⟩ := st
  rcases h with ⟨hb, hr⟩ | hb
  · simp only at hb hr
    subst hb; subst hr
    by_cases ho : o.renameLiveToBackup = true <;>
      simp [rconf_createBackup, ho] at hok ⊢
  · simp only at hb
    subst hb
    cases r <;> simp [rconf_createBackup] at hok ⊢

theorem saveNewConfig_backup (o : IoOracle) (argv0 : String) (cfg : DnsSettings)
    (c : String) (st : FsState) (hb : st.backup = some c) :
    (saveNewConfig o argv0 cfg st).2.backup = some c := by
  have h1 : (rconf_createBackup o false st).2 = st := by
    obtain ⟨r, b⟩ := st
    simp only at hb
    subst hb
    cases r <;> simp [rconf_createBackup]
  unfold saveNewConfig
  by_cases hop : o.openOk = true <;> by_cases hw : o.writeOk = true <;>
    by_cases hs : o.syncOk = true <;> simp [h1, hop, hw, hs, hb]

theorem setManual_sessionInv (o : IoOracle) (env : SnapEnv) (argv0 : String)
    (cfg : DnsSettings) (c : String) (st : FsState) (h : SessionInv c st) :
    SessionInv c (rconf_implSetManual o env argv0 cfg st).2 := by
  unfold rconf_implSetManual
  by_cases he : cfg.IsEmpty = true
  · simpa [he, rconf_implDeleteManual] using restore_sessionInv o c st h
  · simp only [he, if_false, Bool.false_eq_true]
    cases hcb : (rconf_createBackup o false st).1.2 with
    | some err =>
      have hinv := createBackup_sessionInv o c st h
      by_cases hsn : (env.isSnapEnvironment && !env.resolvconfAllowed
          && decide (0 < env.userErrMsgIfNotAllowed.length)) = true <;>
        simp [hcb, hsn, hinv]
    | none =>
      have hbk := createBackup_ok_backup o c st h hcb
      have hsv := saveNewConfig_backup o argv0 cfg c _ hbk
      cases hs : (saveNewConfig o argv0 cfg (rconf_createBackup o false st).2).1 <;>
        simp [hcb, hs] <;> exact Or.inr hsv

theorem restore_ok_of_sessionInv (o : IoOracle) (c : String) (st : FsState)
    (h : SessionInv c st) (hok : (rconf_restoreBackup o st).1 = none) :
    (rconf_restoreBackup o st).2 = ⟨some c, none⟩ := by
  obtain ⟨r, b⟩ := st
  rcases h with ⟨hb, hr⟩ | hb
  · simp only at hb hr
    subst hb; subst hr
    simp [rconf_restoreBackup]
  · simp only at hb
    subst hb
    by_cases ho : o.renameBackupToLive = true <;>
      simp [rconf_restoreBackup, ho] at hok ⊢

theorem initialize_snd (o : IoOracle) (st : FsState) :
    (rconf_implInitialize o st).2 = (rconf_restoreBackup o st).2 := by
  unfold rconf_implInitialize rconf_implDeleteManual
  cases hb : st.backup with
  | none => simp [rconf_restoreBackup, hb]
  | some x =>
    rcases hr : rconf_restoreBackup o st with ⟨e, st2⟩
    cases e <;> simp [hb, hr]

theorem setManualSeq_sessionInv (calls : List SetManualCall) (c : String)
    (st : FsState) (h : SessionInv c st) :
    SessionInv c (runSetManualSeq calls st).1 := by
  induction calls generalizing st with
  | nil => exact h
  | cons call rest ih =>
    simpa [runSetManualSeq] using
      ih _ (setManual_sessionInv call.oracle call.env call.argv0 call.cfg c st h)

theorem resolvBody_eq (a i : String) :
    resolvBody a i = resolvHeader a ++ nameserverLines [i] := by
  have hlit : ("\x27\n\nnameserver " : String).data
      = ("\x27\n\n" : String).data ++ ("nameserver " : String).data := by decide
  apply String.ext
  simp [resolvBody, resolvHeader, nameserverLines, String.data_append, hlit]

theorem setManual_ok_resolv (o : IoOracle) (env : SnapEnv) (argv0 : String)
    (cfg : DnsSettings) (st : FsState) (hne : cfg.IsEmpty = false)
    (hok : (rconf_implSetManual o env argv0 cfg st).1.2 = none) :
    (rconf_implSetManual o env argv0 cfg st).2.resolv
      = some (resolvBody argv0 cfg.ipString) := by
  unfold rconf_implSetManual at hok ⊢
  simp only [hne, Bool.false_eq_true, if_false] at hok ⊢
  cases hcb : (rconf_createBackup o false st).1.2 with
  | some err =>
    by_cases hsn : (env.isSnapEnvironment && !env.resolvconfAllowed
        && decide (0 < env.userErrMsgIfNotAllowed.length)) = true <;>
      simp [hcb, hsn] at hok
  | none =>
    simp only [hcb] at hok ⊢
    by_cases hop : o.openOk = true <;> by_cases hw : o.writeOk = true <;>
      by_cases hs : o.syncOk = true <;>
      simp [saveNewConfig, hop, hw, hs] at hok ⊢

theorem addresses_of_nonEmpty (cfg : DnsSettings) (hne : cfg.IsEmpty = false) :
    cfg.addresses = [cfg.ipString] := by
  simp only [DnsSettings.IsEmpty, decide_eq_false_iff_not] at hne
  simp [DnsSettings.addresses, DnsSettings.ipString, hne]

/-- C1: for every non-empty `ManualDnsSettings`, after a successful
`SetManual` the live resolver path holds exactly the deterministic header
comment followed by one `nameserver <address>` line per address of the
settings, in the order supplied.  The content depends only on the program
name and the settings — not on the prior state — so repeated successful
calls with the same settings produce byte-identical output. -/
theorem setManual_config_content (o : IoOracle) (env : SnapEnv) (argv0 : String)
    (cfg : DnsSettings) (st : FsState) (hne : cfg.IsEmpty = false)
    (hok : (rconf_implSetManual o env argv0 cfg st).1.2 = none) :
    (rconf_implSetManual o env argv0 cfg st).2.resolv
      = some (resolvHeader argv0 ++ nameserverLines cfg.addresses) := by
  rw [addresses_of_nonEmpty cfg hne, ← resolvBody_eq]
  exact setManual_ok_resolv o env argv0 cfg st hne hok

/-- Witness for C1 at a concrete input. -/
theorem setManual_config_content_witness :
    (rconf_implSetManual allOk plainEnv "ivpn" ⟨"10.0.0.1"⟩
        ⟨some "nameserver 8.8.8.8\n", none⟩).2.resolv
      = some (resolvHeader "ivpn"
          ++ nameserverLines (DnsSettings.addresses ⟨"10.0.0.1"⟩)) :=
  setManual_config_content allOk plainEnv "ivpn" ⟨"10.0.0.1"⟩
    ⟨some "nameserver 8.8.8.8\n", none⟩ (by decide) (by decide)

/-- C2: round-trip law — starting a session (no backup, live path holding
`c`), any sequence of successful `SetManual` calls followed by a
`DeleteManual` whose restore succeeds leaves the live path byte-identical to
`c` and the backup no longer exists. -/
theorem setManual_roundTrip (calls : List SetManualCall) (o : IoOracle) (c : String)
    (st : FsState) (hb : st.backup = none) (hl : st.resolv = some c)
    (hall : (runSetManualSeq calls st).2 = true)
    (hdel : (rconf_implDeleteManual o (runSetManualSeq calls st).1).1 = none) :
    (rconf_implDeleteManual o (runSetManualSeq calls st).1).2 = ⟨some c, none⟩ := by
  have hinv : SessionInv c (runSetManualSeq calls st).1 :=
    setManualSeq_sessionInv calls c st (Or.inl ⟨hb, hl⟩)
  exact restore_ok_of_sessionInv o c _ hinv hdel

/-- Witness for C2: two consecutive overrides, then delete, restore the
original content exactly. -/
theorem setManual_roundTrip_witness :
    (rconf_implDeleteManual allOk
        (runSetManualSeq [rtCall1, rtCall2] ⟨some "nameserver 8.8.8.8\n", none⟩).1).2
      = ⟨some "nameserver 8.8.8.8\n", none⟩ :=
  setManual_roundTrip [rtCall1, rtCall2] allOk "nameserver 8.8.8.8\n"
    ⟨some "nameserver 8.8.8.8\n", none⟩ rfl rfl (by decide) (by decide)

/-- C3 counterexample: the invariant exactly as claimed — "the backup exists
iff the live path holds override content rather than the original" — is not
preserved by `SetManual`: if the original live content already coincides with
the body the override writer generates, then after a successful `SetManual`
the backup exists while the live path holds content byte-identical to the
original. -/
theorem claimedBackupInv_not_preserved :
    ClaimedBackupInv c3Original ⟨some c3Original, none⟩ ∧
    ¬ ClaimedBackupInv c3Original
        (runOp allOk (PublicOp.doSetManual plainEnv "ivpn" ⟨"10.0.0.1"⟩)
          ⟨some c3Original, none⟩) := by
  decide

/-- C3 (amended): every public operation — Initialize, SetManual,
DeleteManual, Pause, Resume — preserves, from entry to exit and under every
I/O outcome, the session invariant relative to the original content `c`: the
backup exists (and then holds `c`) iff the live path is not guaranteed to
hold the original; when the backup is absent the live path holds `c`. -/
theorem sessionInv_preserved (o : IoOracle) (op : PublicOp) (c : String)
    (st : FsState) (h : SessionInv c st) : SessionInv c (runOp o op st) := by
  cases op with
  | doInit =>
    unfold runOp
    rw [initialize_snd]
    exact restore_sessionInv o c st h
  | doSetManual env argv0 cfg => exact setManual_sessionInv o env argv0 cfg c st h
  | doDeleteManual => exact restore_sessionInv o c st h
  | doPause =>
    unfold runOp rconf_implPause
    by_cases hbe : rconf_isBackupExists st = true
    · simpa [hbe] using restore_sessionInv o c st h
    · simpa [hbe] using h
  | doResume => exact h

/-- Witness for C3's amended invariant theorem. -/
theorem sessionInv_preserved_witness :
    SessionInv "orig" (runOp allOk PublicOp.doDeleteManual ⟨some "x", some "orig"⟩) :=
  sessionInv_preserved allOk PublicOp.doDeleteManual "orig" ⟨some "x", some "orig"⟩
    (by decide)

/-- C4 counterexample: from a state where the live file exists and no backup
does, the second of two consecutive `createBackup(false)` calls does not
return `(false, nil)`: the first call moved the live file away, so the second
fails its availability check. -/
theorem createBackup_twice_not_noop :
    (rconf_createBackup allOk false
        (rconf_createBackup allOk false ⟨some "orig", none⟩).2).1
      ≠ (false, none) := by
  decide

/-- C4 (amended): two consecutive `createBackup(false)` calls from a state
where the live file exists (and the rename primitive succeeds) perform the
rename at most once — exactly once iff the backup was initially absent; the
second call never renames and leaves the file state, hence the backup
content, unchanged; it returns `(false, nil)` when the backup pre-existed
and a failed-availability error when the first call moved the live file. -/
theorem createBackup_twice (o : IoOracle) (c : String) (st : FsState)
    (hl : st.resolv = some c) (hr : o.renameLiveToBackup = true) :
    (rconf_createBackup o false (rconf_createBackup o false st).2).2
        = (rconf_createBackup o false st).2 ∧
    ¬((rconf_createBackup o false st).1.1 = true ∧
      (rconf_createBackup o false (rconf_createBackup o false st).2).1.1 = true) ∧
    (st.backup = none →
      (rconf_createBackup o false st).1 = (true, none) ∧
      (rconf_createBackup o false (rconf_createBackup o false st).2).1
        = (false, some DnsError.backupStatFailed)) ∧
    (st.backup.isSome = true →
      (rconf_createBackup o false st).1 = (false, none) ∧
      (rconf_createBackup o false st).2 = st ∧
      (rconf_createBackup o false (rconf_createBackup o false st).2).1
        = (false, none)) := by
  obtain ⟨r, b⟩ := st
  simp only at hl
  subst hl
  cases b <;> simp [rconf_createBackup, hr]

/-- Witness for C4's amended theorem. -/
theorem createBackup_twice_witness :
    (rconf_createBackup allOk false
        (rconf_createBackup allOk false ⟨some "orig", none⟩).2).2
      = (rconf_createBackup allOk false ⟨some "orig", none⟩).2
    ∧ (rconf_createBackup allOk false ⟨some "orig", none⟩).1 = (true, none) :=
  ⟨(createBackup_twice allOk "orig" ⟨some "orig", none⟩ rfl rfl).1,
   ((createBackup_twice allOk "orig" ⟨some "orig", none⟩ rfl rfl).2.2.1 rfl).1⟩

/-- C5: `restoreBackup` is idempotent — when the restore rename succeeds,
calling it twice in a row yields the same end state as calling it once and
the second call reports no-op success; calling it with no backup present
returns nil and changes nothing. -/
theorem restoreBackup_idempotent (o : IoOracle) (st : FsState)
    (h : o.renameBackupToLive = true) :
    rconf_restoreBackup o (rconf_restoreBackup o st).2
        = (none, (rconf_restoreBackup o st).2) ∧
    (st.backup = none → rconf_restoreBackup o st = (none, st)) := by
  obtain ⟨r, b⟩ := st
  cases b <;> simp [rconf_restoreBackup, h]

/-- Witness for C5 at a concrete state with a backup present. -/
theorem restoreBackup_idempotent_witness :
    rconf_restoreBackup allOk (rconf_restoreBackup allOk ⟨some "x", some "y"⟩).2
      = (none, (rconf_restoreBackup allOk ⟨some "x", some "y"⟩).2) :=
  (restoreBackup_idempotent allOk ⟨some "x", some "y"⟩ rfl).1

/-- C6: `Initialize` — when the backup exists it restores the original
content to the live path and removes the backup; a restore failure is
returned wrapped; when the backup does not exist it returns nil and leaves
the state untouched. -/
theorem initialize_spec (o : IoOracle) (st : FsState) :
    (st.backup = none → rconf_implInitialize o st = (none, st)) ∧
    (∀ c, st.backup = some c → o.renameBackupToLive = true →
      rconf_implInitialize o st = (none, ⟨some c, none⟩)) ∧
    (∀ c, st.backup = some c → o.renameBackupToLive = false →
      rconf_implInitialize o st
        = (some (DnsError.initRestoreWrap DnsError.restoreRenameFailed), st)) := by
  obtain ⟨r, b⟩ := st
  cases b with
  | none => simp [rconf_implInitialize]
  | some x =>
    by_cases ho : o.renameBackupToLive = true <;>
      simp [rconf_implInitialize, rconf_implDeleteManual, rconf_restoreBackup, ho]

/-- Witness for C6: restore and wrap cases at concrete states. -/
theorem initialize_spec_witness :
    rconf_implInitialize allOk ⟨some "a", some "b"⟩ = (none, ⟨some "b", none⟩) ∧
    rconf_implInitialize ⟨true, false, true, true, true⟩ ⟨some "a", some "b"⟩
      = (some (DnsError.initRestoreWrap DnsError.restoreRenameFailed),
         ⟨some "a", some "b"⟩) :=
  ⟨(initialize_spec allOk ⟨some "a", some "b"⟩).2.1 "b" rfl rfl,
   (initialize_spec ⟨true, false, true, true, true⟩ ⟨some "a", some "b"⟩).2.2 "b" rfl rfl⟩

/-- C7: `SetManual` with empty settings is exactly `DeleteManual`: it
produces the same resulting file state and the same error, and returns the
zero `DnsSettings` value. -/
theorem setManual_empty_eq_deleteManual (o : IoOracle) (env : SnapEnv)
    (argv0 : String) (cfg : DnsSettings) (st : FsState) (h : cfg.IsEmpty = true) :
    rconf_implSetManual o env argv0 cfg st
      = ((emptySettings, (rconf_implDeleteManual o st).1),
         (rconf_implDeleteManual o st).2) := by
  simp [rconf_implSetManual, h]

/-- Witness for C7 at a concrete state with an active override. -/
theorem setManual_empty_eq_deleteManual_witness :
    rconf_implSetManual allOk plainEnv "ivpn" ⟨""⟩ ⟨some "x", some "y"⟩
      = ((emptySettings, (rconf_implDeleteManual allOk ⟨some "x", some "y"⟩).1),
         (rconf_implDeleteManual allOk ⟨some "x", some "y"⟩).2) :=
  setManual_empty_eq_deleteManual allOk plainEnv "ivpn" ⟨""⟩ ⟨some "x", some "y"⟩ rfl

/-- C8: `Pause` — when no backup exists it returns nil and changes no file
state; when a backup exists it produces exactly the result and state of
`DeleteManual`. -/
theorem pause_spec (o : IoOracle) (st : FsState) :
    (st.backup = none → rconf_implPause o st = (none, st)) ∧
    (st.backup.isSome = true → rconf_implPause o st = rconf_implDeleteManual o st) := by
  obtain ⟨r, b⟩ := st
  cases b <;> simp [rconf_implPause, rconf_isBackupExists, rconf_implDeleteManual]

/-- Witness for C8 in both the no-backup and backup cases. -/
theorem pause_spec_witness :
    rconf_implPause allOk ⟨some "x", none⟩ = (none, ⟨some "x", none⟩) ∧
    rconf_implPause allOk ⟨some "x", some "y"⟩
      = rconf_implDeleteManual allOk ⟨some "x", some "y"⟩ :=
  ⟨(pause_spec allOk ⟨some "x", none⟩).1 rfl,
   (pause_spec allOk ⟨some "x", some "y"⟩).2 rfl⟩

/-- C9: when the backup step of a non-empty `SetManual` fails and the snap
diagnostics report a restricted environment (not allowed, with a non-empty
user message), the returned error is the environment-restriction diagnostic
wrapping the backup error; and whenever `SetManual` succeeds, its entire
result is independent of the environment diagnostics — they are consulted
only after a backup failure, never on the success path. -/
theorem setManual_snap_diagnostic (o : IoOracle) (env : SnapEnv) (argv0 : String)
    (cfg : DnsSettings) (st : FsState) :
    (∀ err, cfg.IsEmpty = false →
      (rconf_createBackup o false st).1.2 = some err →
      env.isSnapEnvironment = true → env.resolvconfAllowed = false →
      0 < env.userErrMsgIfNotAllowed.length →
      (rconf_implSetManual o env argv0 cfg st).1
        = (emptySettings,
           some (DnsError.snapRestricted err env.userErrMsgIfNotAllowed))) ∧
    ((rconf_implSetManual o env argv0 cfg st).1.2 = none →
      ∀ env2 : SnapEnv, rconf_implSetManual o env2 argv0 cfg st
        = rconf_implSetManual o env argv0 cfg st) := by
  constructor
  · intro err hne hcb hsnap hallow hmsg
    simp [rconf_implSetManual, hne, hcb, hsnap, hallow, hmsg]
  · intro hok env2
    unfold rconf_implSetManual at hok ⊢
    by_cases he : cfg.IsEmpty = true
    · simp [he]
    · simp only [he, Bool.false_eq_true, if_false] at hok ⊢
      cases hcb : (rconf_createBackup o false st).1.2 with
      | some err =>
        exfalso
        by_cases hsn : (env.isSnapEnvironment && !env.resolvconfAllowed
            && decide (0 < env.userErrMsgIfNotAllowed.length)) = true <;>
          simp [hcb, hsn] at hok
      | none => simp [hcb]

/-- Witness for C9: a restricted snap environment turns the backup failure
into the diagnostic error. -/
theorem setManual_snap_diagnostic_witness :
    (rconf_implSetManual allOk snapEnvRestricted "ivpn" ⟨"1.1.1.1"⟩ ⟨none, none⟩).1
      = (emptySettings,
         some (DnsError.snapRestricted DnsError.backupStatFailed "snap refused")) :=
  (setManual_snap_diagnostic allOk snapEnvRestricted "ivpn" ⟨"1.1.1.1"⟩
      ⟨none, none⟩).1
    DnsError.backupStatFailed rfl (by decide) rfl rfl (by decide)

/-- C10: whenever `SetManual` returns a non-nil error, the `DnsSettings`
value it returns is the zero value, never the input settings. -/
theorem setManual_error_empty (o : IoOracle) (env : SnapEnv) (argv0 : String)
    (cfg : DnsSettings) (st : FsState)
    (h : (rconf_implSetManual o env argv0 cfg st).1.2.isSome = true) :
    (rconf_implSetManual o env argv0 cfg st).1.1 = emptySettings := by
  unfold rconf_implSetManual at h ⊢
  by_cases he : cfg.IsEmpty = true
  · simp [he]
  · simp only [he, Bool.false_eq_true, if_false] at h ⊢
    cases hcb : (rconf_createBackup o false st).1.2 with
    | some err =>
      by_cases hsn : (env.isSnapEnvironment && !env.resolvconfAllowed
          && decide (0 < env.userErrMsgIfNotAllowed.length)) = true <;>
        simp [hcb, hsn]
    | none =>
      cases hs : (saveNewConfig o argv0 cfg (rconf_createBackup o false st).2).1 <;>
        simp [hcb, hs] at h ⊢

/-- Witness for C10: the backup failure path returns the zero settings. -/
theorem setManual_error_empty_witness :
    (rconf_implSetManual allOk plainEnv "ivpn" ⟨"1.1.1.1"⟩ ⟨none, none⟩).1.1
      = emptySettings :=
  setManual_error_empty allOk plainEnv "ivpn" ⟨"1.1.1.1"⟩ ⟨none, none⟩ (by decide)

end VpnDns
